import Mathlib

/-!
Verification development for the rossaiconsulting backend server
(`server.js`, a single-file Express application).

Strings from the JavaScript source are embedded as Lean `String`s, but all
computations on them (lowercasing, trimming, substring search, the
`parseWindow` regex) are carried out on their lists of code points
(`List Nat` via `Char.toNat`), which evaluate inside the kernel.  The
lowercase mapping covers ASCII letters (the `toLowerCase` of the source is
applied to match ASCII keywords, so only the ASCII range is relevant).
External effects (the OpenAI call, the Calendly fetches, the Resend email
sends, `Intl` time formatting) are modelled as oracle parameters: the
branching of the handlers on their outcomes is translated from the source.
-/

set_option maxHeartbeats 1000000

/-! ## Code-point string utilities (JS semantics) -/

/-- Code points of a string. -/
def strCodes (s : String) : List Nat := s.toList.map Char.toNat

/-- The character class of the JS regex `\d`, i.e. `[0-9]`, on code points. -/
def isDigitCode (n : Nat) : Bool := 48 ≤ n && n ≤ 57

/-- The character class of the JS regex `\s` (ECMAScript WhiteSpace and
LineTerminator code points), on code points. -/
def isSpaceCode (n : Nat) : Bool :=
  n = 32 || n = 9 || n = 10 || n = 13 || n = 11 || n = 12 ||
  n = 160 || n = 5760 || (8192 ≤ n && n ≤ 8202) ||
  n = 8232 || n = 8233 || n = 8239 || n = 8287 || n = 12288 || n = 65279

/-- The class `\s` on characters. -/
def isSpaceChar (c : Char) : Bool := isSpaceCode c.toNat

/-- JS `String.prototype.trim` (drops leading and trailing whitespace). -/
def trimChars (l : List Char) : List Char :=
  ((l.dropWhile isSpaceChar).reverse.dropWhile isSpaceChar).reverse

/-- JS `String.prototype.trim` on strings. -/
def jsTrim (s : String) : String := String.mk (trimChars s.toList)

/-- ASCII lowercase mapping on code points (JS `toLowerCase` restricted to
the ASCII letters, which is all that the keyword comparisons of the source use). -/
def lowerCode (n : Nat) : Nat := if 65 ≤ n ∧ n ≤ 90 then n + 32 else n

/-- Code points of `s.toLowerCase()`. -/
def lowerCodes (s : String) : List Nat := (strCodes s).map lowerCode

/-- JS `String.prototype.includes` on code-point lists: does `needle` occur
as a contiguous sublist of the second argument? -/
def listContainsSub (needle : List Nat) : List Nat → Bool
  | [] => needle.isEmpty
  | c :: rest => needle.isPrefixOf (c :: rest) || listContainsSub needle rest

/-! ## Time Window Parser (`parseWindow`, source lines 73-85)

The source matches the regex `(\d{1,2})\s*-\s*(\d{1,2})` against the input
and converts the two capture groups with `Number`.  The regex engine scans
for the leftmost starting position; at a position it matches one or two
digits greedily (backtracking from two to one), then `\s*`, a literal `-`,
`\s*`, and one or two digits greedily.  `matchTailNum`, `matchAtPos` and
`findFirstMatch` implement exactly that search on code-point lists. -/

/-- Numeric value of a digit code point. -/
def digitVal (n : Nat) : Nat := n - 48

/-- Value of `Number` applied to a string of digit code points. -/
def digitsToVal (l : List Nat) : Nat := l.foldl (fun acc c => 10 * acc + digitVal c) 0

/-- Match `\s*-\s*(\d{1,2})` at the head of the list, returning the value of
the capture group. -/
def matchTailNum (cs : List Nat) : Option Nat :=
  match cs.dropWhile isSpaceCode with
  | [] => none
  | c :: rest =>
    if c = 45 then
      match rest.dropWhile isSpaceCode with
      | [] => none
      | d1 :: rest2 =>
        if isDigitCode d1 then
          match rest2 with
          | d2 :: _ => if isDigitCode d2 then some (10 * digitVal d1 + digitVal d2) else some (digitVal d1)
          | [] => some (digitVal d1)
        else none
    else none

/-- Match the whole pattern `(\d{1,2})\s*-\s*(\d{1,2})` anchored at the head
of the list, with the greedy one-or-two-digit first group of the regex engine
(try two digits, backtrack to one). -/
def matchAtPos : List Nat → Option (Nat × Nat)
  | [] => none
  | c1 :: rest =>
    if isDigitCode c1 then
      match rest with
      | c2 :: rest2 =>
        if isDigitCode c2 then
          match matchTailNum rest2 with
          | some b => some (10 * digitVal c1 + digitVal c2, b)
          | none =>
            match matchTailNum rest with
            | some b => some (digitVal c1, b)
            | none => none
        else
          match matchTailNum rest with
          | some b => some (digitVal c1, b)
          | none => none
      | [] => none
    else none

/-- Leftmost match of the pattern: scan starting positions left to right. -/
def findFirstMatch : List Nat → Option (Nat × Nat)
  | [] => none
  | c :: rest =>
    match matchAtPos (c :: rest) with
    | some ab => some ab
    | none => findFirstMatch rest

/-- Record `TimeWindow` (`\x7b start, end \x7d` in the source; `end` is a keyword
here, so the field is named `endH`). -/
structure TimeWindow where
  start : Nat
  endH : Nat
deriving DecidableEq

/-- Function `parseWindow` (source lines 73-85).  `if (!input) return null` is the
empty-string test; the two capture groups are digit strings so the
`Number.isNaN` test never fires and `start < 0` is impossible (values are
naturals). -/
def parseWindow (input : String) : Option TimeWindow :=
  if input = "" then none
  else
    match findFirstMatch (strCodes input) with
    | none => none
    | some (s, e0) =>
      let e := if e0 ≤ s ∧ s < 12 then e0 + 12 else e0
      if s > 23 ∨ e < 1 ∨ e > 24 then none
      else some { start := s, endH := e }

/-- Declarative reading of one occurrence of the regex: a chunk consisting of
one or two digits, optional whitespace, a hyphen (code 45), optional
whitespace, and one or two digits, whose two digit groups have the given
numeric values. -/
def IsWindowToken (a b : Nat) (chunk : List Nat) : Prop :=
  ∃ d₁ s₁ s₂ d₂,
    chunk = d₁ ++ s₁ ++ 45 :: (s₂ ++ d₂) ∧
    (∀ c ∈ d₁, isDigitCode c = true) ∧ 1 ≤ d₁.length ∧ d₁.length ≤ 2 ∧
    (∀ c ∈ s₁, isSpaceCode c = true) ∧ (∀ c ∈ s₂, isSpaceCode c = true) ∧
    (∀ c ∈ d₂, isDigitCode c = true) ∧ 1 ≤ d₂.length ∧ d₂.length ≤ 2 ∧
    digitsToVal d₁ = a ∧ digitsToVal d₂ = b

/-! ## Rate Limiter (source lines 52-54 and 128-139)

The in-memory `rateLimitStore` map is modelled as a function from client
identifiers to optional entries; `Map.set` is function update.  The check
is the block of the `/api/chat` handler: take the entry (or a fresh one),
reset it when `now > entry.resetAt`, increment, write back, and deny
(HTTP 429) iff `count > RATE_LIMIT_MAX`.  The returned `Bool` is `true`
for allow and `false` for deny. -/

structure RateEntry where
  count : Nat
  resetAt : Nat
deriving DecidableEq

def RATE_LIMIT_WINDOW_MS : Nat := 60 * 1000

def RATE_LIMIT_MAX : Nat := 20

def RateStore : Type := String → Option RateEntry

def emptyStore : RateStore := fun _ => none

def rateLimitCheck (store : RateStore) (ip : String) (now : Nat) : Bool × RateStore :=
  let e0 := (store ip).getD { count := 0, resetAt := now + RATE_LIMIT_WINDOW_MS }
  let e1 := if e0.resetAt < now then { count := 0, resetAt := now + RATE_LIMIT_WINDOW_MS } else e0
  let e2 : RateEntry := { count := e1.count + 1, resetAt := e1.resetAt }
  (decide (e2.count ≤ RATE_LIMIT_MAX), fun k => if k = ip then some e2 else store k)

/-- The expected allow/deny outcomes of `n` consecutive in-window checks
starting from a count of `c`: the `i`-th check allows iff `c + i ≤ 20`. -/
def expectedResults : Nat → Nat → List Bool
  | _, 0 => []
  | c, n + 1 => decide (c + 1 ≤ RATE_LIMIT_MAX) :: expectedResults (c + 1) n

/-- Run a sequence of checks for one identifier at the given instants. -/
def runChecks (store : RateStore) (ip : String) : List Nat → List Bool × RateStore
  | [] => ([], store)
  | t :: ts =>
    let r := rateLimitCheck store ip t
    let rest := runChecks r.2 ip ts
    (r.1 :: rest.1, rest.2)

/-! ## Chat endpoint (`/api/chat`, source lines 122-182)

Only the branching structure up to the upstream AI call matters for the
claims: configuration check, rate-limit check (which mutates the store),
then message validation.  `hasKey` is the presence of `OPEN_AI_KEY`;
`message` is the `message` field of the request after the `String(... || "")`
coercion. -/

inductive ChatOutcome where
  | missingKey
  | rateLimited
  | emptyMessage
  | messageTooLong
  | okReply
deriving DecidableEq

def chatHandler (hasKey : Bool) (store : RateStore) (ip : String) (now : Nat)
    (message : String) : ChatOutcome × RateStore :=
  if hasKey = false then (ChatOutcome.missingKey, store)
  else
    let r := rateLimitCheck store ip now
    if r.1 = false then (ChatOutcome.rateLimited, r.2)
    else
      let msg := jsTrim message
      if msg = "" then (ChatOutcome.emptyMessage, r.2)
      else if msg.length > 800 then (ChatOutcome.messageTooLong, r.2)
      else (ChatOutcome.okReply, r.2)

/-- Run a sequence of chat requests (instant, message) for one identifier
with the AI key configured. -/
def runChat (store : RateStore) (ip : String) : List (Nat × String) → List ChatOutcome × RateStore
  | [] => ([], store)
  | (t, m) :: rest =>
    let r := chatHandler true store ip t m
    let rr := runChat r.2 ip rest
    (r.1 :: rr.1, rr.2)

/-! ## Walkthrough endpoint (`/api/walkthrough`, source lines 184-467) -/

/-- One walkthrough answer.  All three fields are optional in the request
JSON (the source guards each access with `|| ""` or optional chaining). -/
structure Answer where
  key : Option String
  question : Option String
  answer : Option String
deriving DecidableEq

/-- The seven extracted fields.  `none` models an absent JSON key (the AI
path forwards whatever object the model returned, so keys can be absent);
the fallback path always produces `some`. -/
structure ExtractedFields where
  industry : Option String
  team_size : Option String
  pain_points : Option String
  tools : Option String
  goals : Option String
  timeline : Option String
  budget : Option String
deriving DecidableEq

/-- A lead report as spread into the JSON response.  `none` models an
absent key. -/
structure LeadReport where
  summary : Option String
  extracted : Option ExtractedFields
  recommended_services : Option (List String)
  suggested_next_step : Option String
deriving DecidableEq

/-- Helper `findAnswer key` from `buildFallbackReport`: the first answer whose
`question`, lowercased, contains `key`. -/
def findAnswer (answers : List Answer) (key : String) : Option Answer :=
  answers.find? (fun item => listContainsSub (strCodes key) (lowerCodes (item.question.getD "")))

/-- JS `(findAnswer(key) || {}).answer || "unknown"`: the `"unknown"`
sentinel replaces a missing item, a missing `answer` field, and an empty
(falsy) answer string. -/
def orUnknown : Option String → String
  | none => "unknown"
  | some s => if s = "" then "unknown" else s

/-- One extracted field of the fallback report. -/
def fallbackField (answers : List Answer) (key : String) : String :=
  orUnknown ((findAnswer answers key).bind Answer.answer)

/-- The recommended-services set of the fallback report (source lines
244-260).  The JS `Set` is seeded with "AI Strategy Assessment" and each
`add` inserts a string distinct from all others, so insertion order makes
it an ordered list with conditional appends. -/
def recommendedServices (pain goal tool : String) : List String :=
  ((["AI Strategy Assessment"] ++
    (if listContainsSub (strCodes "manual") (lowerCodes pain) ||
        listContainsSub (strCodes "spreadsheet") (lowerCodes pain) ||
        listContainsSub (strCodes "crm") (lowerCodes tool) then ["AI Integration"] else [])) ++
   (if listContainsSub (strCodes "automate") (lowerCodes goal) ||
       listContainsSub (strCodes "repetitive") (lowerCodes pain) ||
       listContainsSub (strCodes "admin") (lowerCodes pain) then ["Custom AI Development"] else [])) ++
  ((if listContainsSub (strCodes "training") (lowerCodes goal) ||
       listContainsSub (strCodes "adoption") (lowerCodes pain) then ["AI Training & Enablement"] else []) ++
   (if listContainsSub (strCodes "support") (lowerCodes goal) ||
       listContainsSub (strCodes "maintenance") (lowerCodes pain) then ["Ongoing AI Support"] else []))

/-- Function `buildFallbackReport` (source lines 232-283).  The summary is the fixed
template interpolating `industry` and `timeline`. -/
def buildFallbackReport (answers : List Answer) : LeadReport :=
  let industry := fallbackField answers "business"
  let teamSize := fallbackField answers "team"
  let painPoints := fallbackField answers "bottleneck"
  let tools := fallbackField answers "tools"
  let goals := fallbackField answers "outcome"
  let timeline := fallbackField answers "timeline"
  let budget := fallbackField answers "budget"
  let ex : ExtractedFields :=
    { industry := some industry, team_size := some teamSize,
      pain_points := some painPoints, tools := some tools, goals := some goals,
      timeline := some timeline, budget := some budget }
  { summary := some ("Based on your input, we see near-term opportunities to reduce friction in "
      ++ industry ++ " workflows and deliver measurable wins within your "
      ++ timeline ++ " timeline. Our focus would be an assessment to pinpoint quick ROI, then implement one high-impact workflow tied to your goals."),
    extracted := some ex,
    recommended_services := some (recommendedServices painPoints goals tools),
    suggested_next_step := some "Book a call to map the assessment and a 90-day execution plan." }

/-- Outcome of the AI extraction attempt (source lines 285-331):
`failed` is any exception on the path (upstream call failure, empty model
response, or `JSON.parse` failing on both the raw text and the greedy
brace-delimited substring); `nonObject` is a successful parse whose value
is not an object (caught by the `typeof parsed !== "object"` test);
`object r` is a successfully parsed JSON object. -/
inductive AiParse where
  | failed
  | nonObject
  | object (r : LeadReport)
deriving DecidableEq

/-- The report the endpoint ends up with: the parsed AI object when the AI
is configured and its output parsed to an object, otherwise the fallback. -/
def walkthroughReport (aiConfigured : Bool) (ai : AiParse) (answers : List Answer) : LeadReport :=
  if aiConfigured = false then buildFallbackReport answers
  else
    match ai with
    | AiParse.object r => r
    | AiParse.nonObject => buildFallbackReport answers
    | AiParse.failed => buildFallbackReport answers

inductive WalkResp where
  | badRequest (msg : String)
  | ok (report : LeadReport)
deriving DecidableEq

/-- The report phase of the walkthrough endpoint.  A missing or non-array
`answers` field is coerced to `[]` by the `Array.isArray` test of the source, so
the empty list also models an absent field. -/
def walkthroughHandler (aiConfigured : Bool) (ai : AiParse) (answers : List Answer) : WalkResp :=
  if answers.isEmpty then WalkResp.badRequest "Answers are required."
  else WalkResp.ok (walkthroughReport aiConfigured ai answers)

/-- All seven extracted keys are present (and, being `Option String`
fields, string-valued). -/
def allSevenPresent (r : LeadReport) : Bool :=
  match r.extracted with
  | none => false
  | some e =>
    e.industry.isSome && e.team_size.isSome && e.pain_points.isSome &&
    e.tools.isSome && e.goals.isSome && e.timeline.isSome && e.budget.isSome

/-! ## Notification Dispatcher (source lines 419-453)

The two `sendResendEmail` calls are external effects; the outcome of each attempted
send (success, or an exception with a message) is an oracle argument.
The own logic of the handler — the provider-key gate, the independent `try`
blocks, the user-email guard, and the error strings — is translated from
the source. -/

inductive SendResult where
  | sent
  | failedWith (msg : String)
deriving DecidableEq

structure NotifyResult where
  internalAttempted : Bool
  userAttempted : Bool
  internalEmailError : String
  userEmailError : String
deriving DecidableEq

/-- JS `sendError?.message || fallbackMsg` in a `catch` block. -/
def sendErrMsg (fallbackMsg : String) : SendResult → String
  | SendResult.sent => ""
  | SendResult.failedWith m => if m = "" then fallbackMsg else m

def dispatchNotifications (hasResendKey : Bool) (internalOutcome userOutcome : SendResult)
    (userEmail : String) : NotifyResult :=
  if hasResendKey = false then
    { internalAttempted := false, userAttempted := false,
      internalEmailError := "Missing RESEND_API_KEY.",
      userEmailError := "Missing RESEND_API_KEY." }
  else
    let internalErr := sendErrMsg "Internal email send failed." internalOutcome
    if userEmail = "" then
      { internalAttempted := true, userAttempted := false,
        internalEmailError := internalErr,
        userEmailError := "No user email captured." }
    else
      { internalAttempted := true, userAttempted := true,
        internalEmailError := internalErr,
        userEmailError := sendErrMsg "User email send failed." userOutcome }

/-! ## Availability Broker (`/api/schedule`, source lines 469-560)

The three Calendly fetches are oracles collected in `CalendarEnv`:
`userOk`/`eventsOk`/`availOk` are the HTTP `response.ok` flags and
`userUri`/`eventTypes`/`slots` the (already `Array.isArray`-coerced)
payloads.  `localHour` is the `Intl.DateTimeFormat` hour extraction of
`slotMatchesWindow` (`none` models both a `NaN` hour and a thrown
formatting error, which the source treats alike) and `slotLabel` is
`formatSlotLabel` (whose internal try/catch already yields a total
function). -/

def timezoneMap : List (String × String) :=
  [("est", "America/New_York"), ("edt", "America/New_York"),
   ("cst", "America/Chicago"), ("cdt", "America/Chicago"),
   ("mst", "America/Denver"), ("mdt", "America/Denver"),
   ("pst", "America/Los_Angeles"), ("pdt", "America/Los_Angeles")]

/-- Function `normalizeTimezone` (source lines 67-71); the empty string models a
missing/falsy input. -/
def normalizeTimezone (input : String) : String :=
  if input = "" then "America/Chicago"
  else
    match timezoneMap.find? (fun p => lowerCodes (jsTrim input) == strCodes p.1) with
    | some p => p.2
    | none => input

/-- Function `slotMatchesWindow` (source lines 104-120): no window means every slot
matches; an unreadable local hour fails open. -/
def slotMatchesWindow (localHour : String → String → Option Nat) (iso timezone : String)
    (window : Option TimeWindow) : Bool :=
  match window with
  | none => true
  | some w =>
    match localHour iso timezone with
    | none => true
    | some hour => decide (w.start ≤ hour) && decide (hour < w.endH)

structure EventType where
  name : Option String
  uri : Option String
deriving DecidableEq

structure CalSlot where
  start_time : String
  end_time : String
deriving DecidableEq

structure Suggestion where
  start_time : String
  end_time : String
  label : String
deriving DecidableEq

structure CalendarEnv where
  userOk : Bool
  userUri : Option String
  eventsOk : Bool
  eventTypes : List EventType
  availOk : Bool
  slots : List CalSlot
  localHour : String → String → Option Nat
  slotLabel : String → String → String

inductive ScheduleResp where
  | err (status : Nat) (msg : String)
  | ok (suggestions : List Suggestion) (eventTypeUri : String) (summary : String)
deriving DecidableEq

/-- The event type the broker selects: the first whose name contains
"intro" (case-insensitively), else the first of the list. -/
def selectedEventType (env : CalendarEnv) : EventType :=
  (env.eventTypes.find? (fun evt =>
    listContainsSub (strCodes "intro") (lowerCodes (evt.name.getD "")))).getD
    (env.eventTypes.headD { name := none, uri := none })

/-- Handler for `/api/schedule` (source lines 469-560).  JS falsy tests on the field
strings and URIs become empty-string tests (`getD ""` models
`undefined`). The `company` and `startAfter` fields are read but do not
affect the response (`startAfter` only shifts the 7-day range of the
availability query, which is behind the `slots` oracle). -/
def scheduleHandler (hasToken : Bool) (env : CalendarEnv)
    (name email company goals times timezone startAfter : String) : ScheduleResp :=
  if hasToken = false then ScheduleResp.err 500 "Missing CALENDLY_API."
  else if jsTrim name = "" ∨ jsTrim email = "" ∨ jsTrim goals = "" ∨ jsTrim times = "" then
    ScheduleResp.err 400 "Missing required fields."
  else if env.userOk = false then ScheduleResp.err 500 "Calendly user lookup failed."
  else if env.userUri.getD "" = "" then ScheduleResp.err 500 "Calendly user not found."
  else if env.eventsOk = false then ScheduleResp.err 500 "Calendly event types lookup failed."
  else if env.eventTypes.length = 0 then ScheduleResp.err 500 "No Calendly event types found."
  else if (selectedEventType env).uri.getD "" = "" then
    ScheduleResp.err 500 "Calendly event type URI missing."
  else if env.availOk = false then ScheduleResp.err 500 "Calendly availability lookup failed."
  else
    let tz := normalizeTimezone timezone
    let window := parseWindow (jsTrim times)
    let filtered := ((env.slots.filter (fun slot =>
        slotMatchesWindow env.localHour slot.start_time tz window)).take 3).map
      (fun slot => { start_time := slot.start_time, end_time := slot.end_time,
                     label := env.slotLabel slot.start_time tz : Suggestion })
    ScheduleResp.ok filtered ((selectedEventType env).uri.getD "")
      (if filtered.length = 0 then "No available times matched. Try a different window or timezone."
       else "Here are a few available times.")

/-! ## Concrete inputs used by witnesses and counterexamples -/

/-- The single answer of the §8 fallback example of the spec. -/
def c6Answers : List Answer :=
  [{ key := none, question := some "What\x27s your biggest bottleneck?",
     answer := some "manual data entry in spreadsheets" }]

/-- A nonempty answers list. -/
def sampleAnswers : List Answer :=
  [{ key := none, question := some "What is your business?", answer := some "retail" }]

/-- An AI-returned JSON object that carries only a summary: the extraction
keys are absent. -/
def badAiReport : LeadReport :=
  { summary := some "ok", extracted := none,
    recommended_services := none, suggested_next_step := none }

/-- A calendar whose event-type listing succeeds with zero event types. -/
def envZeroEvents : CalendarEnv :=
  { userOk := true, userUri := some "https://api.calendly.com/users/u1",
    eventsOk := true, eventTypes := [], availOk := true, slots := [],
    localHour := fun _ _ => none, slotLabel := fun iso _ => iso }

/-- A calendar with one event type and no open slots. -/
def envNoSlots : CalendarEnv :=
  { userOk := true, userUri := some "https://api.calendly.com/users/u1",
    eventsOk := true, eventTypes := [{ name := some "Intro Call", uri := some "evt-uri" }],
    availOk := true, slots := [],
    localHour := fun _ _ => none, slotLabel := fun iso _ => iso }

/-- A store holding one mid-window entry. -/
def storeA : RateStore := fun k => if k = "a" then some { count := 3, resetAt := 5 } else none

/-! ## Helper lemmas about the regex matcher -/

theorem digit_not_space {n : Nat} (h : isDigitCode n = true) : isSpaceCode n = false := by
  simp only [isDigitCode, Bool.and_eq_true, decide_eq_true_eq] at h
  simp only [isSpaceCode, Bool.or_eq_false_iff, Bool.and_eq_false_iff,
    decide_eq_false_iff_not, decide_eq_true_eq]
  omega

theorem space_not_digit {n : Nat} (h : isSpaceCode n = true) : isDigitCode n = false := by
  simp only [isSpaceCode, Bool.or_eq_true, Bool.and_eq_true, decide_eq_true_eq] at h
  simp only [isDigitCode, Bool.and_eq_false_iff, decide_eq_false_iff_not]
  omega

theorem dropWhile_append_all {α : Type} (p : α → Bool) (s rest : List α)
    (h : ∀ c ∈ s, p c = true) : (s ++ rest).dropWhile p = rest.dropWhile p := by
  induction s with
  | nil => rfl
  | cons x xs ih =>
    rw [List.cons_append, List.dropWhile_cons, if_pos (h x (List.mem_cons_self x xs))]
    exact ih (fun c hc => h c (List.mem_cons_of_mem x hc))

theorem matchTailNum_sound (cs : List Nat) (b : Nat) (h : matchTailNum cs = some b) :
    ∃ s₁ s₂ d₂ post, cs = s₁ ++ 45 :: (s₂ ++ (d₂ ++ post)) ∧
      (∀ c ∈ s₁, isSpaceCode c = true) ∧ (∀ c ∈ s₂, isSpaceCode c = true) ∧
      (∀ c ∈ d₂, isDigitCode c = true) ∧ 1 ≤ d₂.length ∧ d₂.length ≤ 2 ∧
      digitsToVal d₂ = b := by
  unfold matchTailNum at h
  cases hu : cs.dropWhile isSpaceCode with
  | nil => rw [hu] at h; exact absurd h (by simp)
  | cons c rest =>
    rw [hu] at h
    simp only [] at h
    by_cases hc : c = 45
    · rw [if_pos hc] at h
      cases hv : rest.dropWhile isSpaceCode with
      | nil => rw [hv] at h; exact absurd h (by simp)
      | cons d1 rest2 =>
        rw [hv] at h
        simp only [] at h
        by_cases hd1 : isDigitCode d1 = true
        · rw [if_pos hd1] at h
          have hcs : cs = cs.takeWhile isSpaceCode ++ (c :: rest) := by
            rw [← hu, List.takeWhile_append_dropWhile]
          have hrest : rest = rest.takeWhile isSpaceCode ++ (d1 :: rest2) := by
            rw [← hv, List.takeWhile_append_dropWhile]
          have hs1 : ∀ x ∈ cs.takeWhile isSpaceCode, isSpaceCode x = true :=
            fun x hx => List.mem_takeWhile_imp hx
          have hs2 : ∀ x ∈ rest.takeWhile isSpaceCode, isSpaceCode x = true :=
            fun x hx => List.mem_takeWhile_imp hx
          cases rest2 with
          | nil =>
            refine ⟨cs.takeWhile isSpaceCode, rest.takeWhile isSpaceCode, [d1], [], ?_, hs1, hs2,
              ?_, by simp, by simp, ?_⟩
            · conv_lhs => rw [hcs, hc, hrest]
              simp
            · intro x hx; simp at hx; rw [hx]; exact hd1
            · simp at h; rw [← h]; simp [digitsToVal]
          | cons d2 tl =>
            simp only [] at h
            by_cases hd2 : isDigitCode d2 = true
            · rw [if_pos hd2] at h
              refine ⟨cs.takeWhile isSpaceCode, rest.takeWhile isSpaceCode, [d1, d2], tl, ?_,
                hs1, hs2, ?_, by simp, by simp, ?_⟩
              · conv_lhs => rw [hcs, hc, hrest]
                simp
              · intro x hx; simp at hx
                rcases hx with hx | hx
                · rw [hx]; exact hd1
                · rw [hx]; exact hd2
              · rw [← Option.some_inj.mp h]; simp [digitsToVal]
            · rw [if_neg hd2] at h
              refine ⟨cs.takeWhile isSpaceCode, rest.takeWhile isSpaceCode, [d1], d2 :: tl, ?_,
                hs1, hs2, ?_, by simp, by simp, ?_⟩
              · conv_lhs => rw [hcs, hc, hrest]
                simp
              · intro x hx; simp at hx; rw [hx]; exact hd1
              · rw [← Option.some_inj.mp h]; simp [digitsToVal]
        · rw [if_neg hd1] at h; exact absurd h (by simp)
    · rw [if_neg hc] at h; exact absurd h (by simp)

theorem matchTailNum_isSome (s₁ s₂ d₂ post : List Nat)
    (hs₁ : ∀ c ∈ s₁, isSpaceCode c = true) (hs₂ : ∀ c ∈ s₂, isSpaceCode c = true)
    (hd : ∀ c ∈ d₂, isDigitCode c = true) (hlen : 1 ≤ d₂.length) :
    (matchTailNum (s₁ ++ 45 :: (s₂ ++ (d₂ ++ post)))).isSome = true := by
  cases d₂ with
  | nil => simp at hlen
  | cons e d₂' =>
    have he : isDigitCode e = true := hd e (List.mem_cons_self e d₂')
    unfold matchTailNum
    rw [dropWhile_append_all _ _ _ hs₁, List.dropWhile_cons,
      if_neg (by decide : ¬ (isSpaceCode 45 = true))]
    simp only []
    rw [if_pos trivial]
    have hassoc : (e :: d₂') ++ post = e :: (d₂' ++ post) := by simp
    rw [hassoc, dropWhile_append_all _ _ _ hs₂, List.dropWhile_cons,
      if_neg (by rw [digit_not_space he]; simp)]
    simp only []
    rw [if_pos he]
    cases hdp : d₂' ++ post with
    | nil => simp
    | cons x tl =>
      simp only []
      by_cases hx : isDigitCode x = true
      · rw [if_pos hx]; simp
      · rw [if_neg hx]; simp

theorem token_of_tail (c1 : Nat) (rest : List Nat) (b : Nat) (hc1 : isDigitCode c1 = true)
    (h : matchTailNum rest = some b) :
    ∃ chunk post, c1 :: rest = chunk ++ post ∧ IsWindowToken (digitVal c1) b chunk := by
  obtain ⟨s₁, s₂, d₂, post, hrest, hs₁, hs₂, hd₂, hl1, hl2, hval⟩ := matchTailNum_sound rest b h
  refine ⟨[c1] ++ s₁ ++ 45 :: (s₂ ++ d₂), post, ?_, [c1], s₁, s₂, d₂, rfl, ?_, by simp, by simp,
    hs₁, hs₂, hd₂, hl1, hl2, ?_, hval⟩
  · rw [hrest]; simp
  · intro x hx; simp at hx; rw [hx]; exact hc1
  · simp [digitsToVal]

theorem token_of_tail2 (c1 c2 : Nat) (rest2 : List Nat) (b : Nat)
    (hc1 : isDigitCode c1 = true) (hc2 : isDigitCode c2 = true)
    (h : matchTailNum rest2 = some b) :
    ∃ chunk post, c1 :: c2 :: rest2 = chunk ++ post ∧
      IsWindowToken (10 * digitVal c1 + digitVal c2) b chunk := by
  obtain ⟨s₁, s₂, d₂, post, hrest, hs₁, hs₂, hd₂, hl1, hl2, hval⟩ := matchTailNum_sound rest2 b h
  refine ⟨[c1, c2] ++ s₁ ++ 45 :: (s₂ ++ d₂), post, ?_, [c1, c2], s₁, s₂, d₂, rfl, ?_, by simp,
    by simp, hs₁, hs₂, hd₂, hl1, hl2, ?_, hval⟩
  · rw [hrest]; simp
  · intro x hx; simp at hx
    rcases hx with hx | hx
    · rw [hx]; exact hc1
    · rw [hx]; exact hc2
  · simp [digitsToVal]

theorem matchAtPos_sound (cs : List Nat) (a b : Nat) (h : matchAtPos cs = some (a, b)) :
    ∃ chunk post, cs = chunk ++ post ∧ IsWindowToken a b chunk := by
  cases cs with
  | nil => exact absurd h (by simp [matchAtPos])
  | cons c1 rest =>
    unfold matchAtPos at h
    simp only [] at h
    by_cases hc1 : isDigitCode c1 = true
    · rw [if_pos hc1] at h
      cases rest with
      | nil => exact absurd h (by simp)
      | cons c2 rest2 =>
        simp only [] at h
        by_cases hc2 : isDigitCode c2 = true
        · rw [if_pos hc2] at h
          cases h2 : matchTailNum rest2 with
          | some b2 =>
            rw [h2] at h
            simp only [Option.some_inj, Prod.mk.injEq] at h
            obtain ⟨ha, hb⟩ := h
            rw [← ha, ← hb]
            exact token_of_tail2 c1 c2 rest2 b2 hc1 hc2 h2
          | none =>
            rw [h2] at h
            simp only [] at h
            cases h3 : matchTailNum (c2 :: rest2) with
            | some b3 =>
              rw [h3] at h
              simp only [Option.some_inj, Prod.mk.injEq] at h
              obtain ⟨ha, hb⟩ := h
              rw [← ha, ← hb]
              exact token_of_tail c1 (c2 :: rest2) b3 hc1 h3
            | none => rw [h3] at h; exact absurd h (by simp)
        · rw [if_neg hc2] at h
          cases h3 : matchTailNum (c2 :: rest2) with
          | some b3 =>
            rw [h3] at h
            simp only [Option.some_inj, Prod.mk.injEq] at h
            obtain ⟨ha, hb⟩ := h
            rw [← ha, ← hb]
            exact token_of_tail c1 (c2 :: rest2) b3 hc1 h3
          | none => rw [h3] at h; exact absurd h (by simp)
    · rw [if_neg hc1] at h; exact absurd h (by simp)

theorem matchAtPos_isSome (chunk post : List Nat) (a b : Nat) (h : IsWindowToken a b chunk) :
    (matchAtPos (chunk ++ post)).isSome = true := by
  obtain ⟨d₁, s₁, s₂, d₂, hchunk, hd₁, hl1, hl2, hs₁, hs₂, hd₂, hm1, hm2, hva, hvb⟩ := h
  subst hchunk
  cases d₁ with
  | nil => simp at hl1
  | cons c1 d₁' =>
    have hc1 : isDigitCode c1 = true := hd₁ c1 (List.mem_cons_self _ _)
    cases d₁' with
    | nil =>
      have htail := matchTailNum_isSome s₁ s₂ d₂ post hs₁ hs₂ hd₂ hm1
      obtain ⟨bb, hmt⟩ := Option.isSome_iff_exists.mp htail
      cases s₁ with
      | nil =>
        simp only [List.nil_append] at hmt
        have h45 : isDigitCode 45 = false := by decide
        simp [matchAtPos, hc1, h45, hmt, List.append_assoc]
      | cons sp s₁' =>
        have hsp : isSpaceCode sp = true := hs₁ sp (List.mem_cons_self _ _)
        have hspd : isDigitCode sp = false := space_not_digit hsp
        simp only [List.cons_append] at hmt
        simp [matchAtPos, hc1, hspd, hmt, List.append_assoc]
    | cons c2 d₁'' =>
      cases d₁'' with
      | nil =>
        have hc2 : isDigitCode c2 = true := hd₁ c2 (by simp)
        have htail := matchTailNum_isSome s₁ s₂ d₂ post hs₁ hs₂ hd₂ hm1
        obtain ⟨bb, hmt⟩ := Option.isSome_iff_exists.mp htail
        simp [matchAtPos, hc1, hc2, hmt, List.append_assoc]
      | cons x xs => simp at hl2

theorem findFirstMatch_isSome (pre chunk post : List Nat) (a b : Nat) (h : IsWindowToken a b chunk) :
    (findFirstMatch (pre ++ chunk ++ post)).isSome = true := by
  induction pre with
  | nil =>
    rw [List.nil_append]
    have hpos := matchAtPos_isSome chunk post a b h
    obtain ⟨ab, hab⟩ := Option.isSome_iff_exists.mp hpos
    cases hcp : chunk ++ post with
    | nil =>
      rw [hcp] at hab
      exact absurd hab (by simp [matchAtPos])
    | cons c rest =>
      rw [hcp] at hab
      simp [findFirstMatch, hab]
  | cons p pre' ih =>
    simp only [List.cons_append, List.append_assoc]
    rw [List.append_assoc] at ih
    cases hm : matchAtPos (p :: (pre' ++ (chunk ++ post))) with
    | some ab => simp [findFirstMatch, hm]
    | none => simp [findFirstMatch, hm, ih]

theorem findFirstMatch_sound (cs : List Nat) (a b : Nat) (h : findFirstMatch cs = some (a, b)) :
    ∃ pre chunk post, cs = pre ++ chunk ++ post ∧ IsWindowToken a b chunk ∧
      ∀ pre' chunk' post' a' b', cs = pre' ++ chunk' ++ post' → IsWindowToken a' b' chunk' →
        pre.length ≤ pre'.length := by
  induction cs with
  | nil => exact absurd h (by simp [findFirstMatch])
  | cons c rest ih =>
    unfold findFirstMatch at h
    cases hm : matchAtPos (c :: rest) with
    | some ab =>
      rw [hm] at h
      simp only [Option.some_inj] at h
      rw [h] at hm
      obtain ⟨chunk, post, hdecomp, htok⟩ := matchAtPos_sound (c :: rest) a b hm
      exact ⟨[], chunk, post, by rw [List.nil_append]; exact hdecomp, htok,
        fun pre' chunk' post' a' b' hd ht => Nat.zero_le _⟩
    | none =>
      rw [hm] at h
      simp only [] at h
      obtain ⟨pre, chunk, post, hdecomp, htok, hmin⟩ := ih h
      refine ⟨c :: pre, chunk, post, by rw [hdecomp]; simp, htok, ?_⟩
      intro pre' chunk' post' a' b' hd ht
      cases pre' with
      | nil =>
        rw [List.nil_append] at hd
        have := matchAtPos_isSome chunk' post' a' b' ht
        rw [← hd, hm] at this
        exact absurd this (by simp)
      | cons c'' pre'' =>
        rw [List.cons_append, List.cons_append] at hd
        have htl : rest = pre'' ++ chunk' ++ post' := (List.cons.injEq _ _ _ _).mp hd |>.2
        have := hmin pre'' chunk' post' a' b' htl ht
        simpa using Nat.succ_le_succ this

theorem ifRange_eq (a e : Nat) :
    (if a > 23 ∨ e < 1 ∨ e > 24 then (none : Option TimeWindow)
     else some { start := a, endH := e }) =
      (if a ≤ 23 ∧ 1 ≤ e ∧ e ≤ 24 then some { start := a, endH := e } else none) := by
  by_cases h : a ≤ 23 ∧ 1 ≤ e ∧ e ≤ 24
  · rw [if_pos h, if_neg (by omega)]
  · rw [if_pos (by omega), if_neg h]

theorem parseWindow_eq (s : String) :
    parseWindow s =
      match findFirstMatch (strCodes s) with
      | none => none
      | some (a, b) =>
        let e := if b ≤ a ∧ a < 12 then b + 12 else b
        if a ≤ 23 ∧ 1 ≤ e ∧ e ≤ 24 then some { start := a, endH := e } else none := by
  by_cases hs : s = ""
  · subst hs; rfl
  · unfold parseWindow
    rw [if_neg hs]
    cases hfm : findFirstMatch (strCodes s) with
    | none => rfl
    | some ab =>
      obtain ⟨a, b⟩ := ab
      simp only []
      exact ifRange_eq a (if b ≤ a ∧ a < 12 then b + 12 else b)

/-! ## Claims about the Time Window Parser -/

/-- Claim C1: `parseWindow` locates the first (leftmost) substring made of
two 1-2 digit numbers separated by an optionally spaced hyphen and parses
the two numbers as `start` and `end` (soundness gives a leftmost matching
decomposition for every successful search, completeness shows the search
cannot miss an existing occurrence); it adds 12 to `end` iff `end ≤ start`
and `start < 12`; it returns `none` when no such substring exists or when,
after the correction, `start` is outside [0,23] or `end` is outside
[1,24]; and the four concrete examples of the spec hold. -/
theorem c1_parseWindow_correct :
    (∀ (s : String) (a b : Nat), findFirstMatch (strCodes s) = some (a, b) →
      ∃ pre chunk post, strCodes s = pre ++ chunk ++ post ∧ IsWindowToken a b chunk ∧
        ∀ pre' chunk' post' a' b', strCodes s = pre' ++ chunk' ++ post' →
          IsWindowToken a' b' chunk' → pre.length ≤ pre'.length) ∧
    (∀ (s : String) (pre chunk post : List Nat) (a b : Nat),
      strCodes s = pre ++ chunk ++ post → IsWindowToken a b chunk →
      findFirstMatch (strCodes s) ≠ none) ∧
    (∀ s : String, parseWindow s =
      match findFirstMatch (strCodes s) with
      | none => none
      | some (a, b) =>
        let e := if b ≤ a ∧ a < 12 then b + 12 else b
        if a ≤ 23 ∧ 1 ≤ e ∧ e ≤ 24 then some { start := a, endH := e } else none) ∧
    parseWindow "9-5" = some { start := 9, endH := 17 } ∧
    parseWindow "14-16" = some { start := 14, endH := 16 } ∧
    parseWindow "25-30" = none ∧
    parseWindow "no numbers here" = none := by
  refine ⟨fun s a b h => findFirstMatch_sound (strCodes s) a b h,
    fun s pre chunk post a b hd ht => ?_, parseWindow_eq, by decide, by decide, by decide,
    by decide⟩
  have hsome := findFirstMatch_isSome pre chunk post a b ht
  rw [← hd] at hsome
  intro hnone
  rw [hnone] at hsome
  exact absurd hsome (by simp)

/-- Witness for C1 at the concrete input "9-5": the search returns the
match, which is witnessed by a leftmost token decomposition, the search
cannot return `none`, and the parsed window is 9-17. -/
theorem c1_parseWindow_correct_witness :
    (∃ pre chunk post, strCodes "9-5" = pre ++ chunk ++ post ∧ IsWindowToken 9 5 chunk ∧
      ∀ pre' chunk' post' a' b', strCodes "9-5" = pre' ++ chunk' ++ post' →
        IsWindowToken a' b' chunk' → pre.length ≤ pre'.length) ∧
    findFirstMatch (strCodes "9-5") ≠ none ∧
    parseWindow "9-5" = some { start := 9, endH := 17 } :=
  ⟨c1_parseWindow_correct.1 "9-5" 9 5 (by decide),
   c1_parseWindow_correct.2.1 "9-5" [] [57, 45, 53] [] 9 5 (by decide)
     ⟨[57], [], [], [53], by decide, by decide, by decide, by decide, by decide, by decide,
      by decide, by decide, by decide, by decide, by decide⟩,
   c1_parseWindow_correct.2.2.2.1⟩

/-- Claim C2 counterexample: on input "14-10" the parser returns the window
`{start := 14, endH := 10}` (the ambiguity correction is skipped because
`start ≥ 12`), and that window does not satisfy `end > start`. -/
theorem c2_counterexample :
    (parseWindow "14-10").map (fun w => decide (w.start < w.endH)) = some false := by decide

/-- Claim C2 (amended): a window returned by `parseWindow` satisfies
`end > start` whenever its `start` is below 12; when `start ≥ 12` the
source skips the ambiguity correction and a backwards window such as
`parseWindow "14-10" = {start := 14, endH := 10}` is returned as-is. -/
theorem c2_amended (s : String) (w : TimeWindow) (h : parseWindow s = some w)
    (hlt : w.start < 12) : w.start < w.endH := by
  have hp := parseWindow_eq s
  rw [h] at hp
  cases hfm : findFirstMatch (strCodes s) with
  | none => rw [hfm] at hp; exact absurd hp (by simp)
  | some ab =>
    obtain ⟨a, b⟩ := ab
    rw [hfm] at hp
    simp only [] at hp
    by_cases hc : b ≤ a ∧ a < 12
    · rw [if_pos hc] at hp
      by_cases hr : a ≤ 23 ∧ 1 ≤ b + 12 ∧ b + 12 ≤ 24
      · rw [if_pos hr] at hp
        have hw := (Option.some_inj.mp hp).symm
        subst hw
        simp only []
        omega
      · rw [if_neg hr] at hp; exact absurd hp (by simp)
    · rw [if_neg hc] at hp
      by_cases hr : a ≤ 23 ∧ 1 ≤ b ∧ b ≤ 24
      · rw [if_pos hr] at hp
        have hw := (Option.some_inj.mp hp).symm
        subst hw
        simp only [] at hlt ⊢
        have hba : ¬ b ≤ a := fun hba => hc ⟨hba, hlt⟩
        omega
      · rw [if_neg hr] at hp; exact absurd hp (by simp)

/-- Witness for the amended C2 at the concrete input "9-5". -/
theorem c2_amended_witness :
    parseWindow "9-5" = some { start := 9, endH := 17 } ∧
    ({ start := 9, endH := 17 : TimeWindow }).start < ({ start := 9, endH := 17 : TimeWindow }).endH :=
  ⟨by decide, c2_amended "9-5" { start := 9, endH := 17 } (by decide) (by decide)⟩

/-! ## Rate limiter lemmas and claims -/

theorem rateLimitCheck_inWindow (store : RateStore) (ip : String) (t c r : Nat)
    (h : store ip = some { count := c, resetAt := r }) (ht : t ≤ r) :
    rateLimitCheck store ip t =
      (decide (c + 1 ≤ RATE_LIMIT_MAX),
       fun k => if k = ip then some { count := c + 1, resetAt := r } else store k) := by
  simp only [rateLimitCheck, h, Option.getD_some]
  rw [if_neg (show ¬ r < t by omega)]

theorem rateLimitCheck_fresh (store : RateStore) (ip : String) (t : Nat) (h : store ip = none) :
    rateLimitCheck store ip t =
      (decide (1 ≤ RATE_LIMIT_MAX),
       fun k => if k = ip then some { count := 1, resetAt := t + RATE_LIMIT_WINDOW_MS }
                else store k) := by
  simp only [rateLimitCheck, h, Option.getD_none]
  rw [if_neg (show ¬ (t + RATE_LIMIT_WINDOW_MS < t) by omega)]

theorem rateLimitCheck_reset (store : RateStore) (ip : String) (e : RateEntry) (t : Nat)
    (h : store ip = some e) (hreset : e.resetAt < t) :
    rateLimitCheck store ip t =
      (decide (1 ≤ RATE_LIMIT_MAX),
       fun k => if k = ip then some { count := 1, resetAt := t + RATE_LIMIT_WINDOW_MS }
                else store k) := by
  simp only [rateLimitCheck, h, Option.getD_some]
  rw [if_pos hreset]

theorem runChecks_inWindow (ip : String) (r : Nat) (ts : List Nat) :
    ∀ (store : RateStore) (c : Nat), store ip = some { count := c, resetAt := r } →
      (∀ t ∈ ts, t ≤ r) →
      (runChecks store ip ts).1 = expectedResults c ts.length ∧
      (runChecks store ip ts).2 ip = some { count := c + ts.length, resetAt := r } := by
  induction ts with
  | nil =>
    intro store c h _
    exact ⟨rfl, by simpa using h⟩
  | cons t ts ih =>
    intro store c h hw
    have hstep := rateLimitCheck_inWindow store ip t c r h (hw t (List.mem_cons_self _ _))
    have hstore' : (rateLimitCheck store ip t).2 ip = some { count := c + 1, resetAt := r } := by
      rw [hstep]; simp
    obtain ⟨ih1, ih2⟩ := ih (rateLimitCheck store ip t).2 (c + 1)
      hstore' (fun u hu => hw u (List.mem_cons_of_mem _ hu))
    refine ⟨?_, ?_⟩
    · show (rateLimitCheck store ip t).1 :: (runChecks (rateLimitCheck store ip t).2 ip ts).1 =
        expectedResults c (t :: ts).length
      rw [ih1, hstep]
      simp [expectedResults]
    · show (runChecks (rateLimitCheck store ip t).2 ip ts).2 ip =
        some { count := c + (t :: ts).length, resetAt := r }
      rw [ih2, List.length_cons]
      have harith : c + 1 + ts.length = c + (ts.length + 1) := by omega
      rw [harith]

/-- Claim C3: starting from an empty rate-limit table, for any identifier
and any 21 checks whose last 20 instants stay inside the window of the
first check (at most `resetAt = t0 + 60000`), the first 20 checks allow and the
21st denies (the source then responds 429), after which the table holds
`{count := 21, resetAt := t0 + 60000}`; a check after `resetAt` has passed
resets the count and allows, writing back `{count := 1, resetAt := now +
60000}`; and every check writes its updated entry back, the allow/deny
decision being exactly `count ≤ 20` on the written entry (so the entry is
written on denial too). -/
theorem c3_rate_limiter :
    (∀ (ip : String) (t0 : Nat) (ts : List Nat), ts.length = 20 →
      (∀ t ∈ ts, t ≤ t0 + RATE_LIMIT_WINDOW_MS) →
      (runChecks emptyStore ip (t0 :: ts)).1 = List.replicate 20 true ++ [false] ∧
      (runChecks emptyStore ip (t0 :: ts)).2 ip =
        some { count := 21, resetAt := t0 + RATE_LIMIT_WINDOW_MS }) ∧
    (∀ (store : RateStore) (ip : String) (e : RateEntry) (t : Nat),
      store ip = some e → e.resetAt < t →
      (rateLimitCheck store ip t).1 = true ∧
      (rateLimitCheck store ip t).2 ip =
        some { count := 1, resetAt := t + RATE_LIMIT_WINDOW_MS }) ∧
    (∀ (store : RateStore) (ip : String) (t : Nat),
      ∃ e, (rateLimitCheck store ip t).2 ip = some e ∧
        (rateLimitCheck store ip t).1 = decide (e.count ≤ RATE_LIMIT_MAX)) := by
  refine ⟨?_, ?_, ?_⟩
  · intro ip t0 ts hts hw
    have hfresh := rateLimitCheck_fresh emptyStore ip t0 rfl
    have hstore1 : (rateLimitCheck emptyStore ip t0).2 ip =
        some { count := 1, resetAt := t0 + RATE_LIMIT_WINDOW_MS } := by
      rw [hfresh]; simp
    obtain ⟨h1, h2⟩ := runChecks_inWindow ip (t0 + RATE_LIMIT_WINDOW_MS) ts
      (rateLimitCheck emptyStore ip t0).2 1 hstore1 hw
    constructor
    · show (rateLimitCheck emptyStore ip t0).1 ::
        (runChecks (rateLimitCheck emptyStore ip t0).2 ip ts).1 = _
      rw [h1, hfresh, hts]
      show decide (1 ≤ RATE_LIMIT_MAX) :: expectedResults 1 20 =
        List.replicate 20 true ++ [false]
      decide
    · show (runChecks (rateLimitCheck emptyStore ip t0).2 ip ts).2 ip = _
      rw [h2, hts]
  · intro store ip e t h hreset
    have hr := rateLimitCheck_reset store ip e t h hreset
    rw [hr]
    exact ⟨by simp [RATE_LIMIT_MAX], by simp⟩
  · intro store ip t
    by_cases hrst : ((store ip).getD { count := 0, resetAt := t + RATE_LIMIT_WINDOW_MS }).resetAt < t
    · refine ⟨{ count := 1, resetAt := t + RATE_LIMIT_WINDOW_MS }, ?_, ?_⟩ <;>
        simp [rateLimitCheck, hrst]
    · refine ⟨RateEntry.mk
          (((store ip).getD { count := 0, resetAt := t + RATE_LIMIT_WINDOW_MS }).count + 1)
          (((store ip).getD { count := 0, resetAt := t + RATE_LIMIT_WINDOW_MS }).resetAt),
        ?_, ?_⟩ <;> simp [rateLimitCheck, hrst]

/-- Witness for C3 at concrete inputs: identifier "a", 21 checks at
instant 0; a reset for the stored entry `{count := 3, resetAt := 5}` at
instant 10; and the write-back clause at the empty store. -/
theorem c3_rate_limiter_witness :
    ((runChecks emptyStore "a" ((0 : Nat) :: List.replicate 20 0)).1 =
        List.replicate 20 true ++ [false] ∧
      (runChecks emptyStore "a" ((0 : Nat) :: List.replicate 20 0)).2 "a" =
        some { count := 21, resetAt := 0 + RATE_LIMIT_WINDOW_MS }) ∧
    ((rateLimitCheck storeA "a" 10).1 = true ∧
      (rateLimitCheck storeA "a" 10).2 "a" =
        some { count := 1, resetAt := 10 + RATE_LIMIT_WINDOW_MS }) ∧
    (∃ e, (rateLimitCheck emptyStore "b" 0).2 "b" = some e ∧
      (rateLimitCheck emptyStore "b" 0).1 = decide (e.count ≤ RATE_LIMIT_MAX)) :=
  ⟨c3_rate_limiter.1 "a" 0 (List.replicate 20 0) (by decide)
     (fun t ht => by rw [List.eq_of_mem_replicate ht]; simp),
   c3_rate_limiter.2.1 storeA "a" { count := 3, resetAt := 5 } 10 (by simp [storeA])
     (by decide),
   c3_rate_limiter.2.2 emptyStore "b" 0⟩

/-- Claim C10: on the chat endpoint, once the AI-configuration check has
passed, the rate-limit entry update is applied to the store before the
message is validated — after any request the store at the identifier
equals the store the bare rate-limit check would leave, whatever the
message — and concretely 20 requests whose empty message is rejected
with 400 still consume the identifier's quota, so a 21st, valid request
is denied with 429. -/
theorem c10_chat_rate_before_validation :
    (∀ (store : RateStore) (ip : String) (now : Nat) (msg : String),
      (chatHandler true store ip now msg).2 ip = (rateLimitCheck store ip now).2 ip) ∧
    (runChat emptyStore "a" (List.replicate 20 ((0 : Nat), "") ++ [((0 : Nat), "hi")])).1 =
      List.replicate 20 ChatOutcome.emptyMessage ++ [ChatOutcome.rateLimited] := by
  constructor
  · intro store ip now msg
    simp only [chatHandler, if_neg (show ¬ (true = false) by simp)]
    split
    · rfl
    · split
      · rfl
      · split
        · rfl
        · rfl
  · decide

/-! ## Walkthrough endpoint claims -/

/-- Claim C4: the walkthrough endpoint returns 400 exactly when the
`answers` array is missing or empty (a missing/non-array field is coerced
to `[]`); for a non-empty answers list, when the AI client is unconfigured
or the AI call throws / returns output unparseable as JSON on both
attempts, the endpoint responds 200 with the deterministic fallback
report — the AI failure is never surfaced as an error response. -/
theorem c4_walkthrough_fallback :
    ∀ (aiConfigured : Bool) (ai : AiParse) (answers : List Answer),
      (answers = [] → walkthroughHandler aiConfigured ai answers =
        WalkResp.badRequest "Answers are required.") ∧
      (answers ≠ [] → (aiConfigured = false ∨ ai = AiParse.failed) →
        walkthroughHandler aiConfigured ai answers =
          WalkResp.ok (buildFallbackReport answers)) := by
  intro aiConfigured ai answers
  constructor
  · intro h; subst h; rfl
  · intro hne hfail
    have hbool : answers.isEmpty = false := by
      cases answers with
      | nil => exact absurd rfl hne
      | cons a l => rfl
    have hrep : walkthroughReport aiConfigured ai answers = buildFallbackReport answers := by
      rcases hfail with h | h
      · subst h; rfl
      · subst h; unfold walkthroughReport; cases aiConfigured <;> rfl
    unfold walkthroughHandler
    rw [hbool, hrep]
    simp

/-- Witness for C4: the empty answers list yields 400 and a nonempty one
with the AI unconfigured yields the fallback report. -/
theorem c4_walkthrough_fallback_witness :
    walkthroughHandler false AiParse.failed [] = WalkResp.badRequest "Answers are required." ∧
    walkthroughHandler false AiParse.failed sampleAnswers =
      WalkResp.ok (buildFallbackReport sampleAnswers) :=
  ⟨(c4_walkthrough_fallback false AiParse.failed []).1 rfl,
   (c4_walkthrough_fallback false AiParse.failed sampleAnswers).2 (by simp [sampleAnswers])
     (Or.inl rfl)⟩

/-- Claim C5: `buildFallbackReport` is deterministic — two invocations on
equal answers lists produce equal reports.  Its embedding as a pure
function of the answers alone (no clock, no randomness, no network oracle
among its arguments) reflects that the source function reads nothing but
the `answers` closure variable. -/
theorem c5_fallback_deterministic :
    ∀ (answers₁ answers₂ : List Answer), answers₁ = answers₂ →
      buildFallbackReport answers₁ = buildFallbackReport answers₂ :=
  fun _ _ h => congrArg buildFallbackReport h

/-- Witness for C5 at a concrete answers list. -/
theorem c5_fallback_deterministic_witness :
    buildFallbackReport sampleAnswers = buildFallbackReport sampleAnswers :=
  c5_fallback_deterministic sampleAnswers sampleAnswers rfl

theorem recommendedServices_mem (pain goal tool : String) :
    "AI Strategy Assessment" ∈ recommendedServices pain goal tool ∧
    ("AI Integration" ∈ recommendedServices pain goal tool ↔
      (listContainsSub (strCodes "manual") (lowerCodes pain) ||
       listContainsSub (strCodes "spreadsheet") (lowerCodes pain) ||
       listContainsSub (strCodes "crm") (lowerCodes tool)) = true) ∧
    ("Custom AI Development" ∈ recommendedServices pain goal tool ↔
      (listContainsSub (strCodes "automate") (lowerCodes goal) ||
       listContainsSub (strCodes "repetitive") (lowerCodes pain) ||
       listContainsSub (strCodes "admin") (lowerCodes pain)) = true) ∧
    ("AI Training & Enablement" ∈ recommendedServices pain goal tool ↔
      (listContainsSub (strCodes "training") (lowerCodes goal) ||
       listContainsSub (strCodes "adoption") (lowerCodes pain)) = true) ∧
    ("Ongoing AI Support" ∈ recommendedServices pain goal tool ↔
      (listContainsSub (strCodes "support") (lowerCodes goal) ||
       listContainsSub (strCodes "maintenance") (lowerCodes pain)) = true) := by
  unfold recommendedServices
  cases h1 : (listContainsSub (strCodes "manual") (lowerCodes pain) ||
      listContainsSub (strCodes "spreadsheet") (lowerCodes pain) ||
      listContainsSub (strCodes "crm") (lowerCodes tool)) <;>
    cases h2 : (listContainsSub (strCodes "automate") (lowerCodes goal) ||
      listContainsSub (strCodes "repetitive") (lowerCodes pain) ||
      listContainsSub (strCodes "admin") (lowerCodes pain)) <;>
    cases h3 : (listContainsSub (strCodes "training") (lowerCodes goal) ||
      listContainsSub (strCodes "adoption") (lowerCodes pain)) <;>
    cases h4 : (listContainsSub (strCodes "support") (lowerCodes goal) ||
      listContainsSub (strCodes "maintenance") (lowerCodes pain)) <;>
    simp [h1, h2, h3, h4]

/-- Claim C6: for every answers list the recommended services of the
fallback report contain "AI Strategy Assessment", and each further service is
present exactly when its keyword test on the lowercased pain-points /
goals / tools fields fires (manual, spreadsheet on pain points and crm on
tools for AI Integration; automate on goals and repetitive, admin on pain
points for Custom AI Development; training on goals and adoption on pain
points for AI Training & Enablement; support on goals and maintenance on
pain points for Ongoing AI Support); on the single-answer example of the spec
both "AI Strategy Assessment" and "AI Integration" are recommended. -/
theorem c6_fallback_services :
    (∀ answers : List Answer,
      (buildFallbackReport answers).recommended_services =
        some (recommendedServices (fallbackField answers "bottleneck")
          (fallbackField answers "outcome") (fallbackField answers "tools")) ∧
      ("AI Strategy Assessment" ∈ recommendedServices (fallbackField answers "bottleneck")
          (fallbackField answers "outcome") (fallbackField answers "tools") ∧
       ("AI Integration" ∈ recommendedServices (fallbackField answers "bottleneck")
          (fallbackField answers "outcome") (fallbackField answers "tools") ↔
        (listContainsSub (strCodes "manual") (lowerCodes (fallbackField answers "bottleneck")) ||
         listContainsSub (strCodes "spreadsheet") (lowerCodes (fallbackField answers "bottleneck")) ||
         listContainsSub (strCodes "crm") (lowerCodes (fallbackField answers "tools"))) = true) ∧
       ("Custom AI Development" ∈ recommendedServices (fallbackField answers "bottleneck")
          (fallbackField answers "outcome") (fallbackField answers "tools") ↔
        (listContainsSub (strCodes "automate") (lowerCodes (fallbackField answers "outcome")) ||
         listContainsSub (strCodes "repetitive") (lowerCodes (fallbackField answers "bottleneck")) ||
         listContainsSub (strCodes "admin") (lowerCodes (fallbackField answers "bottleneck"))) = true) ∧
       ("AI Training & Enablement" ∈ recommendedServices (fallbackField answers "bottleneck")
          (fallbackField answers "outcome") (fallbackField answers "tools") ↔
        (listContainsSub (strCodes "training") (lowerCodes (fallbackField answers "outcome")) ||
         listContainsSub (strCodes "adoption") (lowerCodes (fallbackField answers "bottleneck"))) = true) ∧
       ("Ongoing AI Support" ∈ recommendedServices (fallbackField answers "bottleneck")
          (fallbackField answers "outcome") (fallbackField answers "tools") ↔
        (listContainsSub (strCodes "support") (lowerCodes (fallbackField answers "outcome")) ||
         listContainsSub (strCodes "maintenance") (lowerCodes (fallbackField answers "bottleneck"))) = true))) ∧
    ("AI Strategy Assessment" ∈ ((buildFallbackReport c6Answers).recommended_services.getD []) ∧
     "AI Integration" ∈ ((buildFallbackReport c6Answers).recommended_services.getD [])) := by
  constructor
  · intro answers
    exact ⟨rfl, recommendedServices_mem _ _ _⟩
  · exact ⟨by decide, by decide⟩

/-- Claim C7 counterexample: when the AI path successfully parses a JSON
object that omits the `extracted` keys, the endpoint forwards that object
unvalidated, so the resulting report is missing all seven extracted keys
— the invariant fails on the AI path. -/
theorem c7_counterexample :
    walkthroughHandler true (AiParse.object badAiReport) sampleAnswers =
      WalkResp.ok badAiReport ∧
    allSevenPresent badAiReport = false :=
  ⟨rfl, rfl⟩

/-- Claim C7 (amended): every report produced by the fallback path — when
the AI is unconfigured, its call fails, or its output parses to a
non-object — has all seven extracted keys present as strings, absence
being the `"unknown"` sentinel; a successfully parsed AI object is
forwarded without validation and may omit keys. -/
theorem c7_amended (aiConfigured : Bool) (ai : AiParse) (answers : List Answer)
    (h : aiConfigured = false ∨ ai = AiParse.failed ∨ ai = AiParse.nonObject) :
    allSevenPresent (walkthroughReport aiConfigured ai answers) = true := by
  have hrep : walkthroughReport aiConfigured ai answers = buildFallbackReport answers := by
    rcases h with h | h | h
    · subst h; rfl
    · subst h; unfold walkthroughReport; cases aiConfigured <;> rfl
    · subst h; unfold walkthroughReport; cases aiConfigured <;> rfl
  rw [hrep]
  simp [allSevenPresent, buildFallbackReport]

/-- Witness for the amended C7 at a concrete failing AI call. -/
theorem c7_amended_witness :
    allSevenPresent (walkthroughReport false AiParse.failed sampleAnswers) = true :=
  c7_amended false AiParse.failed sampleAnswers (Or.inl rfl)

/-- Claim C8: in the notification dispatch, an absent email provider key
skips both sends and reports the missing configuration in both error
fields; with the key present the internal send is always attempted, the
user send is attempted exactly when a user email address was discovered,
and the attempt of each send is unaffected by the outcome of the other
(the two try blocks are independent). -/
theorem c8_notification_dispatch :
    (∀ (i u : SendResult) (e : String), dispatchNotifications false i u e =
      { internalAttempted := false, userAttempted := false,
        internalEmailError := "Missing RESEND_API_KEY.",
        userEmailError := "Missing RESEND_API_KEY." }) ∧
    (∀ (i u : SendResult) (e : String),
      (dispatchNotifications true i u e).internalAttempted = true) ∧
    (∀ (i u : SendResult) (e : String),
      (dispatchNotifications true i u e).userAttempted = decide (¬ e = "")) ∧
    (∀ (i i' u : SendResult) (e : String),
      (dispatchNotifications true i u e).userAttempted =
        (dispatchNotifications true i' u e).userAttempted) ∧
    (∀ (i u u' : SendResult) (e : String),
      (dispatchNotifications true i u e).internalAttempted =
        (dispatchNotifications true i u' e).internalAttempted) := by
  refine ⟨fun i u e => rfl, fun i u e => ?_, fun i u e => ?_, fun i i' u e => ?_,
    fun i u u' e => ?_⟩ <;>
    · simp only [dispatchNotifications, if_neg (show ¬ (true = false) by simp)]
      by_cases he : e = "" <;> simp [he]

/-! ## Availability broker claim -/

/-- Claim C9: once the request passes validation and the user lookup, a
calendar event-type listing that succeeds with zero event types fails the
request with a 500 whose message "No Calendly event types found." is
distinct from the empty-slot summary; whereas with at least one event
type and a successful availability lookup whose window-filtered slot list
is empty, the endpoint succeeds with an empty suggestions list and the
summary inviting the user to widen the window. -/
theorem c9_availability_broker :
    (∀ (env : CalendarEnv) (name email company goals times timezone startAfter : String),
      ¬ jsTrim name = "" → ¬ jsTrim email = "" → ¬ jsTrim goals = "" → ¬ jsTrim times = "" →
      env.userOk = true → ¬ env.userUri.getD "" = "" →
      env.eventsOk = true → env.eventTypes = [] →
      scheduleHandler true env name email company goals times timezone startAfter =
        ScheduleResp.err 500 "No Calendly event types found.") ∧
    ("No Calendly event types found." ≠
      "No available times matched. Try a different window or timezone.") ∧
    (∀ (env : CalendarEnv) (name email company goals times timezone startAfter u : String),
      ¬ jsTrim name = "" → ¬ jsTrim email = "" → ¬ jsTrim goals = "" → ¬ jsTrim times = "" →
      env.userOk = true → ¬ env.userUri.getD "" = "" →
      env.eventsOk = true → ¬ env.eventTypes = [] →
      (selectedEventType env).uri.getD "" = u → ¬ u = "" →
      env.availOk = true →
      env.slots.filter (fun slot => slotMatchesWindow env.localHour slot.start_time
        (normalizeTimezone timezone) (parseWindow (jsTrim times))) = [] →
      scheduleHandler true env name email company goals times timezone startAfter =
        ScheduleResp.ok [] u "No available times matched. Try a different window or timezone.") := by
  refine ⟨?_, by decide, ?_⟩
  · intro env name email company goals times timezone startAfter hn he hg ht hok huri hev hzero
    unfold scheduleHandler
    rw [if_neg (show ¬ (true = false) by simp)]
    rw [if_neg (show ¬ (jsTrim name = "" ∨ jsTrim email = "" ∨ jsTrim goals = "" ∨
      jsTrim times = "") by tauto)]
    rw [if_neg (by simp [hok])]
    rw [if_neg huri]
    rw [if_neg (by simp [hev])]
    rw [if_pos (by rw [hzero]; rfl)]
  · intro env name email company goals times timezone startAfter u hn he hg ht hok huri hev
      hne hsel hu hav hfilter
    unfold scheduleHandler
    rw [if_neg (show ¬ (true = false) by simp)]
    rw [if_neg (show ¬ (jsTrim name = "" ∨ jsTrim email = "" ∨ jsTrim goals = "" ∨
      jsTrim times = "") by tauto)]
    rw [if_neg (by simp [hok])]
    rw [if_neg huri]
    rw [if_neg (by simp [hev])]
    rw [if_neg (by simp [hne])]
    rw [if_neg (by rw [hsel]; exact hu)]
    rw [if_neg (by simp [hav])]
    simp only [hfilter, List.take_nil, List.map_nil, List.length_nil]
    rw [hsel]
    rfl

/-- Witness for C9: a calendar with zero event types produces the distinct
500, and one event type with no matching slots produces the empty-list
success. -/
theorem c9_availability_broker_witness :
    scheduleHandler true envZeroEvents "Al" "a@b.co" "" "growth" "9-5" "" "" =
      ScheduleResp.err 500 "No Calendly event types found." ∧
    scheduleHandler true envNoSlots "Al" "a@b.co" "" "growth" "9-5" "" "" =
      ScheduleResp.ok [] "evt-uri"
        "No available times matched. Try a different window or timezone." :=
  ⟨c9_availability_broker.1 envZeroEvents "Al" "a@b.co" "" "growth" "9-5" "" ""
     (by decide) (by decide) (by decide) (by decide) (by decide) (by decide)
     (by decide) (by decide),
   c9_availability_broker.2.2 envNoSlots "Al" "a@b.co" "" "growth" "9-5" "" "" "evt-uri"
     (by decide) (by decide) (by decide) (by decide) (by decide) (by decide)
     (by decide) (by decide) (by decide) (by decide) (by decide) (by decide)⟩
